import Mathlib

/-!
Verification development for the generic sync change pipeline
(`sync/glue/generic_change_processor.cc`) and the deferred startup
controller (`sync/startup_controller.cc`).

The two `.cc` files are embedded shallowly below.  The surrounding
interfaces (datatype enum, tree-store node adapter, cryptographer,
`base::Time`) live outside this repository and are modelled from the
specification's interface sections; every such definition carries a doc
comment starting with `Modelled from the spec:`.
-/

namespace ChromeSync

/-- Modelled from the spec: the datatype tag `T` (`syncable::ModelType`),
an opaque enumerator with a distinguished `Unspecified` value.  The exact
set of constructors is immaterial; a representative handful is used. -/
inductive ModelType where
  | unspecified
  | bookmarks
  | preferences
  | passwords
  | autofill
  | themes
  | typedUrls
  | extensions
  | sessions
  | apps
deriving DecidableEq, Repr

/-- Modelled from the spec: `syncable::ModelTypeToString`, a stable string
name per datatype. -/
def modelTypeToString : ModelType → String
  | .unspecified => "Unspecified"
  | .bookmarks => "Bookmarks"
  | .preferences => "Preferences"
  | .passwords => "Passwords"
  | .autofill => "Autofill"
  | .themes => "Themes"
  | .typedUrls => "Typed URLs"
  | .extensions => "Extensions"
  | .sessions => "Sessions"
  | .apps => "Apps"

/-- Modelled from the spec: `syncable::ModelTypeToRootTag`, the total
function `root_tag(T)` giving a stable string key for the per-type root
node. -/
def modelTypeToRootTag : ModelType → String
  | .unspecified => "google_chrome_unspecified"
  | .bookmarks => "google_chrome_bookmarks"
  | .preferences => "google_chrome_preferences"
  | .passwords => "google_chrome_passwords"
  | .autofill => "google_chrome_autofill"
  | .themes => "google_chrome_themes"
  | .typedUrls => "google_chrome_typed_urls"
  | .extensions => "google_chrome_extensions"
  | .sessions => "google_chrome_sessions"
  | .apps => "google_chrome_apps"

/-- Modelled from the spec: entity specifics, the opaque datatype-dependent
payload; it determines the datatype of the sync data carrying it and may
carry an `encrypted` marker (ciphertexts are numbered). -/
structure EntitySpecifics where
  dataType : ModelType
  hasEncrypted : Bool
  encrypted : Nat
  payload : Nat
deriving DecidableEq, Repr

/-- Modelled from the spec: `csync::SyncData`, a value object with a Local
variant (client tag, title, specifics) and a Remote variant (remote id,
specifics).  The datatype is derived from the specifics payload. -/
inductive SyncData where
  | localData (tag : String) (title : String) (specifics : EntitySpecifics)
  | remoteData (id : Int) (specifics : EntitySpecifics)
deriving DecidableEq, Repr

def SyncData.GetDataType : SyncData → ModelType
  | .localData _ _ s => s.dataType
  | .remoteData _ s => s.dataType

def SyncData.GetTag : SyncData → String
  | .localData tag _ _ => tag
  | .remoteData _ _ => ""

def SyncData.GetTitle : SyncData → String
  | .localData _ title _ => title
  | .remoteData _ _ => ""

def SyncData.GetSpecifics : SyncData → EntitySpecifics
  | .localData _ _ s => s
  | .remoteData _ s => s

def SyncData.GetRemoteId : SyncData → Int
  | .localData _ _ _ => 0
  | .remoteData id _ => id

def SyncData.IsLocal : SyncData → Bool
  | .localData _ _ _ => true
  | .remoteData _ _ => false

/-- Modelled from the spec: `csync::SyncChange::SyncChangeType`
(`ACTION_INVALID` is the unset value handled by the final else branch of
the outbound dispatcher). -/
inductive SyncChangeType where
  | actInvalid
  | actAdd
  | actUpdate
  | actDelete
deriving DecidableEq, Repr

/-- Modelled from the spec: `csync::SyncChange`, a pair of an action and a
sync data value. -/
structure SyncChange where
  changeType : SyncChangeType
  syncData : SyncData
deriving DecidableEq, Repr

/-- Modelled from the spec: inbound `csync::ChangeRecord` actions. -/
inductive ChangeRecordAction where
  | actionAdd
  | actionUpdate
  | actionDelete
deriving DecidableEq, Repr

/-- Modelled from the spec: inbound change record `(id, action, specifics)`;
for deletes the specifics are inline, for add/update they are re-read from
the node. -/
structure ChangeRecord where
  id : Int
  action : ChangeRecordAction
  specifics : EntitySpecifics
deriving DecidableEq, Repr

/-- Modelled from the spec: `csync::SyncError` — unset, or an error record
carrying a message and the affected datatype.  `checkCrash` stands for a
fatal `CHECK` failure (process abort), which is not a returned error. -/
inductive SyncError where
  | unset
  | set (message : String) (dataType : ModelType)
  | checkCrash (message : String)
deriving DecidableEq, Repr

/-- Modelled from the spec: `csync::BaseNode::InitByLookupResult`. -/
inductive InitByLookupResult where
  | ok
  | entryNotGood
  | entryIsDeleted
  | decryptIfNecessary
  | precondition
deriving DecidableEq, Repr

/-- Modelled from the spec: `csync::WriteNode::InitUniqueByCreationResult`. -/
inductive InitUniqueByCreationResult where
  | success
  | emptyTag
  | entryAlreadyExists
  | couldNotCreate
  | setPredecessorFailed
deriving DecidableEq, Repr

/-- Modelled from the spec: the tree store as seen through a read
transaction — node lookup results, node contents, and the first-child /
successor sibling chain of the type root (`kInvalidId = 0` marks the end
of a chain). -/
structure ReadStore where
  idLookup : Int → InitByLookupResult
  nodeSpecifics : Int → EntitySpecifics
  tagLookup : String → InitByLookupResult
  firstChildId : Int
  successorId : Int → Int

/-- The part of `GenericChangeProcessor` state the inbound stage touches:
the running flag, the weak local-service handle (alive or destroyed), and
the staging buffer `syncer_changes_`. -/
structure Processor where
  running : Bool
  localServiceAlive : Bool
  syncerChanges : List SyncChange
deriving DecidableEq, Repr

/-- The loop of `GenericChangeProcessor::ApplyChangesFromSyncModel`
(generic_change_processor.cc:47-71).  `staged` is the current contents of
`syncer_changes_`; the returned list is its final contents and the string
list is the sequence of messages passed to
`OnSingleDatatypeUnrecoverableError`.  On a failed id lookup the loop
returns at once, leaving `staged` as is. -/
def applyLoop (store : ReadStore) : List ChangeRecord → List SyncChange →
    List SyncChange × List String
  | [], staged => (staged, [])
  | r :: rest, staged =>
    match r.action with
    | .actionDelete =>
        applyLoop store rest
          (staged ++ [⟨SyncChangeType.actDelete, SyncData.remoteData r.id r.specifics⟩])
    | a =>
        let action := if a = ChangeRecordAction.actionAdd then
          SyncChangeType.actAdd else SyncChangeType.actUpdate
        if store.idLookup r.id ≠ InitByLookupResult.ok then
          (staged, ["Failed to look up data for received change with id " ++ toString r.id])
        else
          applyLoop store rest
            (staged ++ [⟨action, SyncData.remoteData r.id (store.nodeSpecifics r.id)⟩])

/-- `GenericChangeProcessor::ApplyChangesFromSyncModel`
(generic_change_processor.cc:41-72): run the staging loop over the record
list, starting from the current staging buffer. -/
def applyChangesFromSyncModel (store : ReadStore) (p : Processor)
    (records : List ChangeRecord) : Processor × List String :=
  let res := applyLoop store records p.syncerChanges
  ({ p with syncerChanges := res.1 }, res.2)

/-- `GenericChangeProcessor::CommitChangesFromSyncModel`
(generic_change_processor.cc:74-94).  `svc` is the local service's
`ProcessSyncChanges`; the returned strings are the handler messages.
When the local service handle is dead the buffer is left untouched. -/
def commitChangesFromSyncModel (svc : List SyncChange → SyncError)
    (p : Processor) : Processor × List String :=
  if p.running = false then (p, [])
  else if p.syncerChanges = [] then (p, [])
  else if p.localServiceAlive = false then
    (p, ["Local service destroyed."])
  else
    let err := svc p.syncerChanges
    let cleared := { p with syncerChanges := [] }
    match err with
    | .unset => (cleared, [])
    | .set msg _ => (cleared, [msg])
    | .checkCrash msg => (cleared, [msg])

/-- The staged entry produced for one successfully processed inbound
record (the loop body of `ApplyChangesFromSyncModel`). -/
def stageRecord (store : ReadStore) (r : ChangeRecord) : SyncChange :=
  match r.action with
  | .actionDelete => ⟨SyncChangeType.actDelete, SyncData.remoteData r.id r.specifics⟩
  | .actionAdd => ⟨SyncChangeType.actAdd, SyncData.remoteData r.id (store.nodeSpecifics r.id)⟩
  | .actionUpdate => ⟨SyncChangeType.actUpdate, SyncData.remoteData r.id (store.nodeSpecifics r.id)⟩

/-- Modelled from the spec: the tree store as seen through a write
transaction — root lookup by tag, client-tag and id lookup, unique
creation, the raw-entry specifics view used by the encryption diagnostic,
and the transaction-scoped cryptographer (`can_decrypt`,
`encrypted_types`). -/
structure TreeStore where
  tagLookup : String → InitByLookupResult
  clientTagLookup : ModelType → String → InitByLookupResult
  idLookup : Int → InitByLookupResult
  createUnique : ModelType → String → InitUniqueByCreationResult
  entrySpecifics : ModelType → String → EntitySpecifics
  canDecrypt : Nat → Bool
  encryptedTypes : ModelType → Bool

/-- How an outbound node mutation identifies its target node. -/
inductive NodeRef where
  | byClientTag (t : ModelType) (tag : String)
  | byId (id : Int)
  | created (t : ModelType) (tag : String)
deriving DecidableEq, Repr

/-- A tree-store mutation performed by the outbound stage. -/
inductive Mutation where
  | create (t : ModelType) (tag : String)
  | setTitle (n : NodeRef) (title : String)
  | setEntitySpecifics (n : NodeRef) (s : EntitySpecifics)
  | remove (n : NodeRef)
deriving DecidableEq, Repr

/-- `LogLookupFailure` (generic_change_processor.cc:139-193): build the
error for a failed delete-path lookup and report it once.  The `.ok` arm
is the C++ `default` case.  Returns the error and the handler messages. -/
def logLookupFailure (result : InitByLookupResult) (msgHead : String)
    (t : ModelType) : SyncError × List String :=
  match result with
  | .entryNotGood =>
      let m := msgHead ++ "could not find entry matching the lookup criteria."
      (SyncError.set m t, [m])
  | .entryIsDeleted =>
      let m := msgHead ++ "entry is already deleted."
      (SyncError.set m t, [m])
  | .decryptIfNecessary =>
      let m := msgHead ++ "unable to decrypt"
      (SyncError.set m t, [m])
  | .precondition =>
      let m := msgHead ++ "a precondition was not met for calling init."
      (SyncError.set m t, [m])
  | .ok =>
      let m := msgHead ++ "unknown error"
      (SyncError.set m t, [m])

/-- `AttemptDelete` (generic_change_processor.cc:195-234): dispatch on the
sync data variant, look the node up, and `Remove` it on success.  Returns
the mutations performed, the handler messages, and the error. -/
def attemptDelete (store : TreeStore) (change : SyncChange) (t : ModelType)
    (ts : String) : List Mutation × List String × SyncError :=
  match change.syncData with
  | .localData tag _ s =>
      if tag = "" then
        let m := "Failed to delete " ++ ts ++ " node. Local data, empty tag."
        ([], [m], SyncError.set m t)
      else
        let result := store.clientTagLookup s.dataType tag
        if result ≠ InitByLookupResult.ok then
          let le := logLookupFailure result
            ("Failed to delete " ++ ts ++ " node. Local data, ") t
          ([], le.2, le.1)
        else
          ([Mutation.remove (NodeRef.byClientTag s.dataType tag)], [], SyncError.unset)
  | .remoteData rid _ =>
      let result := store.idLookup rid
      if result ≠ InitByLookupResult.ok then
        let le := logLookupFailure result
          ("Failed to delete " ++ ts ++ " node. Non-local data, ") t
        ([], le.2, le.1)
      else
        ([Mutation.remove (NodeRef.byId rid)], [], SyncError.unset)

/-- One iteration of the `GenericChangeProcessor::ProcessSyncChanges` loop
(generic_change_processor.cc:248-432): dispatch on the change type and
produce the mutations, handler messages, and error of this change. -/
def processOne (store : TreeStore) (change : SyncChange) :
    List Mutation × List String × SyncError :=
  let t := change.syncData.GetDataType
  let ts := modelTypeToString t
  match change.changeType with
  | .actDelete => attemptDelete store change t ts
  | .actAdd =>
      if store.tagLookup (modelTypeToRootTag t) ≠ InitByLookupResult.ok then
        let m := "Failed to look up root node for type " ++ ts
        ([], [m], SyncError.set m t)
      else
        match store.createUnique t change.syncData.GetTag with
        | .success =>
            ([Mutation.create t change.syncData.GetTag,
              Mutation.setTitle (NodeRef.created t change.syncData.GetTag)
                change.syncData.GetTitle,
              Mutation.setEntitySpecifics (NodeRef.created t change.syncData.GetTag)
                change.syncData.GetSpecifics], [], SyncError.unset)
        | .emptyTag =>
            let m := "Failed to create " ++ ts ++ " node: " ++ "empty tag"
            ([], [m], SyncError.set m t)
        | .entryAlreadyExists =>
            let m := "Failed to create " ++ ts ++ " node: " ++ "entry already exists"
            ([], [m], SyncError.set m t)
        | .couldNotCreate =>
            let m := "Failed to create " ++ ts ++ " node: " ++ "failed to create entry"
            ([], [m], SyncError.set m t)
        | .setPredecessorFailed =>
            let m := "Failed to create " ++ ts ++ " node: " ++ "failed to set predecessor"
            ([], [m], SyncError.set m t)
  | .actUpdate =>
      let result := store.clientTagLookup t change.syncData.GetTag
      if result = InitByLookupResult.ok then
        ([Mutation.setTitle (NodeRef.byClientTag t change.syncData.GetTag)
            change.syncData.GetTitle,
          Mutation.setEntitySpecifics (NodeRef.byClientTag t change.syncData.GetTag)
            change.syncData.GetSpecifics], [], SyncError.unset)
      else if result = InitByLookupResult.precondition then
        let m := "Failed to load entry w/empty tag for " ++ ts ++ "."
        ([], [m], SyncError.set m t)
      else if result = InitByLookupResult.entryNotGood then
        let m := "Failed to load bad entry for " ++ ts ++ "."
        ([], [m], SyncError.set m t)
      else if result = InitByLookupResult.entryIsDeleted then
        let m := "Failed to load deleted entry for " ++ ts ++ "."
        ([], [m], SyncError.set m t)
      else
        let specifics := store.entrySpecifics t change.syncData.GetTag
        if specifics.hasEncrypted = false then
          ([], [], SyncError.checkCrash "specifics.has_encrypted()")
        else
          let canDecrypt := store.canDecrypt specifics.encrypted
          let agreement := store.encryptedTypes t
          if !agreement && !canDecrypt then
            let m := "Failed to load encrypted entry, missing key and nigori mismatch for "
              ++ ts ++ "."
            ([], [m], SyncError.set m t)
          else if agreement && canDecrypt then
            let m := "Failed to load encrypted entry, we have the key and the nigori matches (?!) for "
              ++ ts ++ "."
            ([], [m], SyncError.set m t)
          else if agreement then
            let m := "Failed to load encrypted entry, missing key and the nigori matches for "
              ++ ts ++ "."
            ([], [m], SyncError.set m t)
          else
            let m := "Failed to load encrypted entry, we have the key(?!) and nigori mismatch for "
              ++ ts ++ "."
            ([], [m], SyncError.set m t)
  | .actInvalid =>
      let m := "Received unset csync::SyncChange in the change processor."
      ([], [m], SyncError.set m t)

/-- The iteration of `GenericChangeProcessor::ProcessSyncChanges`: fold
the per-change step over the list, stopping at the first change whose
error is set (mutations and reports accumulate; nothing is rolled back). -/
def processLoop (store : TreeStore) : List SyncChange → List Mutation →
    List String → List Mutation × List String × SyncError
  | [], muts, reps => (muts, reps, SyncError.unset)
  | c :: rest, muts, reps =>
      let step := processOne store c
      match step.2.2 with
      | .unset => processLoop store rest (muts ++ step.1) (reps ++ step.2.1)
      | e => (muts ++ step.1, reps ++ step.2.1, e)

/-- `GenericChangeProcessor::ProcessSyncChanges`
(generic_change_processor.cc:242-434): one write transaction over the
whole list; returns the accumulated mutations, the handler messages, and
the error returned to the caller. -/
def processSyncChanges (store : TreeStore) (changes : List SyncChange) :
    List Mutation × List String × SyncError :=
  processLoop store changes [] []

/-- Mutations of a change list whose members all succeed (used to state
what survives before the first failure). -/
def preMutations (store : TreeStore) : List SyncChange → List Mutation
  | [] => []
  | c :: rest => (processOne store c).1 ++ preMutations store rest

/-- Outcome of the `GetSyncDataForType` sibling-chain traversal:
completed, failed with an error, or ran out of the explicit fuel bound
(the C++ `while` loop has no such bound; all claims hold below it). -/
inductive TraverseOutcome where
  | completed
  | failed (e : SyncError)
  | fuelExhausted
deriving DecidableEq, Repr

/-- The `while` loop of `GenericChangeProcessor::GetSyncDataForType`
(generic_change_processor.cc:115-128): walk the successor chain from the
root's first child, appending `Remote{id, specifics}` entries to the
caller's output list; a failed id lookup returns at once with the list as
is. -/
def getSyncDataLoop (store : ReadStore) (t : ModelType) :
    Nat → Int → List SyncData → List SyncData × TraverseOutcome
  | 0, id, acc =>
      if id = 0 then (acc, TraverseOutcome.completed)
      else (acc, TraverseOutcome.fuelExhausted)
  | fuel + 1, id, acc =>
      if id = 0 then (acc, TraverseOutcome.completed)
      else if store.idLookup id ≠ InitByLookupResult.ok then
        (acc, TraverseOutcome.failed (SyncError.set
          ("Failed to fetch child node for type " ++ modelTypeToString t ++ ".") t))
      else
        getSyncDataLoop store t fuel (store.successorId id)
          (acc ++ [SyncData.remoteData id (store.nodeSpecifics id)])

/-- `GenericChangeProcessor::GetSyncDataForType`
(generic_change_processor.cc:96-130): look up the type root by its root
tag, then traverse its child chain into the caller's output list. -/
def getSyncDataForType (store : ReadStore) (t : ModelType) (fuel : Nat)
    (acc : List SyncData) : List SyncData × TraverseOutcome :=
  if store.tagLookup (modelTypeToRootTag t) ≠ InitByLookupResult.ok then
    (acc, TraverseOutcome.failed (SyncError.set
      ("Server did not create the top-level " ++ modelTypeToString t ++
       " node. We might be running against an out-of-date server.") t))
  else
    getSyncDataLoop store t fuel store.firstChildId acc

/-- Modelled from the spec: the two deferred-init triggers recorded in
the `Sync.Startup.DeferredInitTrigger` histogram. -/
inductive DeferredInitTrigger where
  | dataTypeRequest
  | fallbackTimer
deriving DecidableEq, Repr

/-- Modelled from the spec: one telemetry (UMA histogram) sample emitted
by the startup controller. -/
inductive Telemetry where
  | refreshTokenAvailable (b : Bool)
  | timeDeferred (d : Nat)
  | typeTriggeringInit (t : ModelType)
  | deferredInitTrigger (tr : DeferredInitTrigger)
deriving DecidableEq, Repr

/-- `StartupController::StartUpDeferredOption`. -/
inductive StartUpDeferredOption where
  | backendDeferred
  | immediate
deriving DecidableEq, Repr

/-- Modelled from the spec: the startup collaborators read by
`TryStart` (prefs, signin, token service) plus the
`kSyncEnableDeferredStartup` command-line switch.  `base::Time` values
are modelled as `Option Nat` (none = `is_null`). -/
structure StartupEnv where
  isManaged : Bool
  isStartSuppressed : Bool
  effectiveUsername : String
  tokenServiceExists : Bool
  refreshTokenAvailable : Bool
  hasSyncSetupCompleted : Bool
  deferredStartupEnabled : Bool
deriving DecidableEq, Repr

/-- The mutable state of `StartupController`.  `backendStarts` counts the
invocations of the `start_backend_` closure; `timerScheduled` records a
pending fallback-timer task (weak-pointer invalidation on `Reset` makes a
pending task a no-op, modelled as clearing the flag); `histograms` is the
sequence of telemetry samples emitted so far. -/
structure StartupState where
  receivedStartRequest : Bool
  setupInProgress : Bool
  autoStartEnabled : Bool
  startUpTime : Option Nat
  startBackendTime : Option Nat
  backendStarts : Nat
  timerScheduled : Bool
  histograms : List Telemetry
deriving DecidableEq, Repr

/-- `StartupController::StartUp` (startup_controller.cc:68-91).  `now` is
the current clock reading. -/
def startUp (env : StartupEnv) (now : Nat) (deferredOption : StartUpDeferredOption)
    (s : StartupState) : StartupState × Bool :=
  let firstStart := s.startUpTime.isNone
  let s1 := if firstStart then { s with startUpTime := some now } else s
  if deferredOption = StartUpDeferredOption.backendDeferred ∧
      env.deferredStartupEnabled = true then
    let s2 := if firstStart then { s1 with timerScheduled := true } else s1
    (s2, false)
  else
    if s1.startBackendTime.isNone then
      ({ s1 with startBackendTime := some now,
                 backendStarts := s1.backendStarts + 1 }, true)
    else
      (s1, true)

/-- `StartupController::TryStart` (startup_controller.cc:98-149): the five
pre-checks, the `RefreshTokenAvailable` histogram, then the
deferred/immediate decision. -/
def tryStart (env : StartupEnv) (now : Nat) (s : StartupState) :
    StartupState × Bool :=
  if env.isManaged then (s, false)
  else if env.isStartSuppressed then (s, false)
  else if env.effectiveUsername = "" then (s, false)
  else if env.tokenServiceExists = false then (s, false)
  else if env.refreshTokenAvailable = false then (s, false)
  else
    let s1 := { s with histograms :=
      s.histograms ++ [Telemetry.refreshTokenAvailable true] }
    if env.hasSyncSetupCompleted then
      if s1.receivedStartRequest = false then
        startUp env now StartUpDeferredOption.backendDeferred s1
      else
        startUp env now StartUpDeferredOption.immediate s1
    else if s1.setupInProgress || s1.autoStartEnabled then
      startUp env now StartUpDeferredOption.immediate s1
    else
      (s1, false)

/-- `StartupController::Reset` (startup_controller.cc:55-62). -/
def reset (s : StartupState) : StartupState :=
  { s with receivedStartRequest := false,
           setupInProgress := false,
           startUpTime := none,
           startBackendTime := none,
           timerScheduled := false }

/-- `StartupController::set_setup_in_progress` (startup_controller.cc:64-66). -/
def setSetupInProgress (b : Bool) (s : StartupState) : StartupState :=
  { s with setupInProgress := b }

/-- `StartupController::OnFallbackStartupTimerExpired`
(startup_controller.cc:151-167). -/
def onFallbackStartupTimerExpired (env : StartupEnv) (now : Nat)
    (s : StartupState) : StartupState :=
  if s.startBackendTime.isSome then s
  else
    let timeDeferred := now - s.startUpTime.getD 0
    let samples := [Telemetry.timeDeferred timeDeferred,
      Telemetry.deferredInitTrigger DeferredInitTrigger.fallbackTimer]
    let s1 := { s with histograms := s.histograms ++ samples,
                       receivedStartRequest := true }
    (tryStart env now s1).1

/-- `StartupController::GetBackendInitializationStateString`
(startup_controller.cc:169-176). -/
def getBackendInitializationStateString (s : StartupState) : String :=
  if s.startBackendTime.isSome then "Started"
  else if s.startUpTime.isSome then "Deferred"
  else "Not started"

/-- `StartupController::OnDataTypeRequestsSyncStartup`
(startup_controller.cc:178-206). -/
def onDataTypeRequestsSyncStartup (env : StartupEnv) (now : Nat)
    (t : ModelType) (s : StartupState) : StartupState :=
  if env.deferredStartupEnabled = false then s
  else if s.startBackendTime.isSome then s
  else
    let s1 :=
      match s.startUpTime with
      | some t0 =>
          let samples := [Telemetry.timeDeferred (now - t0),
            Telemetry.typeTriggeringInit t,
            Telemetry.deferredInitTrigger DeferredInitTrigger.dataTypeRequest]
          { s with histograms := s.histograms ++ samples }
      | none => s
    let s2 := { s1 with receivedStartRequest := true }
    (tryStart env now s2).1

/-- An externally triggerable startup-controller operation, for stating
lifetime invariants over operation sequences. -/
inductive StartupOp where
  | opTryStart
  | opStartUp (deferredOption : StartUpDeferredOption)
  | opReset
  | opSetSetupInProgress (b : Bool)
  | opFallbackTimer
  | opDataTypeRequest (t : ModelType)
deriving DecidableEq, Repr

/-- One startup-controller operation at clock reading `now`. -/
def stepOp (env : StartupEnv) (now : Nat) (op : StartupOp)
    (s : StartupState) : StartupState :=
  match op with
  | .opTryStart => (tryStart env now s).1
  | .opStartUp d => (startUp env now d s).1
  | .opReset => reset s
  | .opSetSetupInProgress b => setSetupInProgress b s
  | .opFallbackTimer => onFallbackStartupTimerExpired env now s
  | .opDataTypeRequest t => onDataTypeRequestsSyncStartup env now t s

/-- Run a sequence of timestamped startup-controller operations. -/
def runOps (env : StartupEnv) : List (Nat × StartupOp) → StartupState → StartupState
  | [], s => s
  | p :: rest, s => runOps env rest (stepOp env p.1 p.2 s)

/-! ## Lemmas about the startup controller -/

lemma startUp_histograms (env : StartupEnv) (now : Nat)
    (d : StartUpDeferredOption) (s : StartupState) :
    (startUp env now d s).1.histograms = s.histograms := by
  simp only [startUp]
  split <;> split <;> simp <;> split <;> simp

lemma startUp_receivedStartRequest (env : StartupEnv) (now : Nat)
    (d : StartUpDeferredOption) (s : StartupState) :
    (startUp env now d s).1.receivedStartRequest = s.receivedStartRequest := by
  simp only [startUp]
  split <;> split <;> simp <;> split <;> simp

lemma tryStart_histograms (env : StartupEnv) (now : Nat) (s : StartupState) :
    (tryStart env now s).1.histograms = s.histograms ∨
    (tryStart env now s).1.histograms =
      s.histograms ++ [Telemetry.refreshTokenAvailable true] := by
  simp only [tryStart]
  split
  · exact Or.inl rfl
  split
  · exact Or.inl rfl
  split
  · exact Or.inl rfl
  split
  · exact Or.inl rfl
  split
  · exact Or.inl rfl
  split
  · split <;> exact Or.inr (by rw [startUp_histograms])
  split
  · exact Or.inr (by rw [startUp_histograms])
  · exact Or.inr rfl

lemma tryStart_receivedStartRequest (env : StartupEnv) (now : Nat) (s : StartupState) :
    (tryStart env now s).1.receivedStartRequest = s.receivedStartRequest := by
  simp only [tryStart]
  split
  · rfl
  split
  · rfl
  split
  · rfl
  split
  · rfl
  split
  · rfl
  split
  · split <;> rw [startUp_receivedStartRequest]
  split
  · rw [startUp_receivedStartRequest]
  · rfl

/-- C8: a `try_start` call made while `is_managed` holds returns false and
changes no controller state at all (in particular `start_backend_time`
stays unset and the `start_backend` closure is not invoked). -/
theorem c8_managed_tryStart_noop (env : StartupEnv) (now : Nat)
    (s : StartupState) (h : env.isManaged = true) :
    tryStart env now s = (s, false) := by
  simp only [tryStart, h]
  simp

/-- Witness for C8 at a concrete environment and state. -/
theorem c8_witness :
    tryStart
      { isManaged := true, isStartSuppressed := false, effectiveUsername := "user",
        tokenServiceExists := true, refreshTokenAvailable := true,
        hasSyncSetupCompleted := true, deferredStartupEnabled := true } 3
      { receivedStartRequest := false, setupInProgress := false,
        autoStartEnabled := false, startUpTime := none, startBackendTime := none,
        backendStarts := 0, timerScheduled := false, histograms := [] } =
      ({ receivedStartRequest := false, setupInProgress := false,
         autoStartEnabled := false, startUpTime := none, startBackendTime := none,
         backendStarts := 0, timerScheduled := false, histograms := [] }, false) :=
  c8_managed_tryStart_noop _ 3 _ rfl

/-- C5: when the five pre-checks pass, `try_start` takes `start_up(Deferred)`
iff sync setup is completed and no start request was received, takes
`start_up(Immediate)` iff setup is completed and a request was received or
setup is not completed but a setup is in progress or auto-start is on, and
otherwise returns false without calling `start_up` (only the
`RefreshTokenAvailable` histogram is recorded). -/
theorem c5_tryStart_decision (env : StartupEnv) (now : Nat) (s : StartupState)
    (h1 : env.isManaged = false) (h2 : env.isStartSuppressed = false)
    (h3 : env.effectiveUsername ≠ "") (h4 : env.tokenServiceExists = true)
    (h5 : env.refreshTokenAvailable = true) :
    (env.hasSyncSetupCompleted = true → s.receivedStartRequest = false →
      tryStart env now s = startUp env now StartUpDeferredOption.backendDeferred
        { s with histograms := s.histograms ++ [Telemetry.refreshTokenAvailable true] }) ∧
    (env.hasSyncSetupCompleted = true → s.receivedStartRequest = true →
      tryStart env now s = startUp env now StartUpDeferredOption.immediate
        { s with histograms := s.histograms ++ [Telemetry.refreshTokenAvailable true] }) ∧
    (env.hasSyncSetupCompleted = false →
      (s.setupInProgress = true ∨ s.autoStartEnabled = true) →
      tryStart env now s = startUp env now StartUpDeferredOption.immediate
        { s with histograms := s.histograms ++ [Telemetry.refreshTokenAvailable true] }) ∧
    (env.hasSyncSetupCompleted = false → s.setupInProgress = false →
      s.autoStartEnabled = false →
      tryStart env now s =
        ({ s with histograms := s.histograms ++ [Telemetry.refreshTokenAvailable true] },
         false)) := by
  refine ⟨?_, ?_, ?_, ?_⟩ <;> intro hc hr
  · simp [tryStart, h1, h2, h3, h4, h5, hc, hr]
  · simp [tryStart, h1, h2, h3, h4, h5, hc, hr]
  · rcases hr with hr | hr <;> simp [tryStart, h1, h2, h3, h4, h5, hc, hr]
  · intro ha
    simp [tryStart, h1, h2, h3, h4, h5, hc, hr, ha]

/-- Witness for C5: a concrete run through the deferred branch. -/
theorem c5_witness :
    tryStart
      { isManaged := false, isStartSuppressed := false, effectiveUsername := "user",
        tokenServiceExists := true, refreshTokenAvailable := true,
        hasSyncSetupCompleted := true, deferredStartupEnabled := true } 3
      { receivedStartRequest := false, setupInProgress := false,
        autoStartEnabled := false, startUpTime := none, startBackendTime := none,
        backendStarts := 0, timerScheduled := false, histograms := [] } =
    startUp
      { isManaged := false, isStartSuppressed := false, effectiveUsername := "user",
        tokenServiceExists := true, refreshTokenAvailable := true,
        hasSyncSetupCompleted := true, deferredStartupEnabled := true } 3
      StartUpDeferredOption.backendDeferred
      { receivedStartRequest := false, setupInProgress := false,
        autoStartEnabled := false, startUpTime := none, startBackendTime := none,
        backendStarts := 0, timerScheduled := false,
        histograms := [Telemetry.refreshTokenAvailable true] } := by
  have h := c5_tryStart_decision
    { isManaged := false, isStartSuppressed := false, effectiveUsername := "user",
      tokenServiceExists := true, refreshTokenAvailable := true,
      hasSyncSetupCompleted := true, deferredStartupEnabled := true } 3
    { receivedStartRequest := false, setupInProgress := false,
      autoStartEnabled := false, startUpTime := none, startBackendTime := none,
      backendStarts := 0, timerScheduled := false, histograms := [] }
    rfl rfl (by decide) rfl rfl
  exact h.1 rfl rfl

/-- C10: with deferred startup enabled and the backend not yet started, a
data-type flare that arrives before `start_up_time` was ever set still
flips `received_start_request` to true and runs `try_start` (the whole
call is exactly `try_start` on the flag-updated state), and it records
none of the `TimeDeferred` / `TypeTriggeringInit` / `DeferredInitTrigger`
samples — at most the `RefreshTokenAvailable` sample from `try_start`. -/
theorem c10_dataTypeRequest_before_startUpTime (env : StartupEnv) (now : Nat)
    (t : ModelType) (s : StartupState)
    (hd : env.deferredStartupEnabled = true)
    (hb : s.startBackendTime = none)
    (hu : s.startUpTime = none) :
    onDataTypeRequestsSyncStartup env now t s
      = (tryStart env now { s with receivedStartRequest := true }).1 ∧
    (onDataTypeRequestsSyncStartup env now t s).receivedStartRequest = true ∧
    ((onDataTypeRequestsSyncStartup env now t s).histograms = s.histograms ∨
     (onDataTypeRequestsSyncStartup env now t s).histograms =
       s.histograms ++ [Telemetry.refreshTokenAvailable true]) := by
  have heq : onDataTypeRequestsSyncStartup env now t s
      = (tryStart env now { s with receivedStartRequest := true }).1 := by
    simp [onDataTypeRequestsSyncStartup, hd, hb, hu]
  refine ⟨heq, ?_, ?_⟩
  · rw [heq, tryStart_receivedStartRequest]
  · rw [heq]
    exact tryStart_histograms env now { s with receivedStartRequest := true }

/-- Witness for C10 at a concrete environment and state. -/
theorem c10_witness :
    onDataTypeRequestsSyncStartup
      { isManaged := false, isStartSuppressed := false, effectiveUsername := "user",
        tokenServiceExists := true, refreshTokenAvailable := true,
        hasSyncSetupCompleted := true, deferredStartupEnabled := true } 7
      ModelType.sessions
      { receivedStartRequest := false, setupInProgress := false,
        autoStartEnabled := false, startUpTime := none, startBackendTime := none,
        backendStarts := 0, timerScheduled := false, histograms := [] } =
      (tryStart
        { isManaged := false, isStartSuppressed := false, effectiveUsername := "user",
          tokenServiceExists := true, refreshTokenAvailable := true,
          hasSyncSetupCompleted := true, deferredStartupEnabled := true } 7
        { receivedStartRequest := true, setupInProgress := false,
          autoStartEnabled := false, startUpTime := none, startBackendTime := none,
          backendStarts := 0, timerScheduled := false, histograms := [] }).1 :=
  (c10_dataTypeRequest_before_startUpTime _ 7 ModelType.sessions _ rfl rfl rfl).1

/-! ## Lifetime invariants of the startup controller (C7) -/

/-- The C7 lifetime relation between a state and a later state reached
without an intervening `Reset`: a set `start_up_time` is never changed, a
set `start_backend_time` is never changed and no further `start_backend`
invocation happens, and from an unset `start_backend_time` the backend is
invoked exactly once if and only if the timestamp becomes set. -/
def preservesLifetime (s s2 : StartupState) : Prop :=
  (∀ t, s.startUpTime = some t → s2.startUpTime = some t) ∧
  (∀ u, s.startBackendTime = some u →
    s2.startBackendTime = some u ∧ s2.backendStarts = s.backendStarts) ∧
  (s.startBackendTime = none →
    (s2.startBackendTime = none ∧ s2.backendStarts = s.backendStarts) ∨
    (s2.startBackendTime.isSome = true ∧ s2.backendStarts = s.backendStarts + 1))

lemma preservesLifetime_refl (s : StartupState) : preservesLifetime s s :=
  ⟨fun _ h => h, fun _ h => ⟨h, rfl⟩, fun _ => Or.inl ⟨by assumption, rfl⟩⟩

lemma preservesLifetime_trans {s1 s2 s3 : StartupState}
    (h12 : preservesLifetime s1 s2) (h23 : preservesLifetime s2 s3) :
    preservesLifetime s1 s3 := by
  obtain ⟨a12, b12, c12⟩ := h12
  obtain ⟨a23, b23, c23⟩ := h23
  refine ⟨fun t h => a23 t (a12 t h), fun u h => ?_, fun h => ?_⟩
  · obtain ⟨h2, hc2⟩ := b12 u h
    obtain ⟨h3, hc3⟩ := b23 u h2
    exact ⟨h3, by rw [hc3, hc2]⟩
  · rcases c12 h with ⟨h2, hc2⟩ | ⟨h2, hc2⟩
    · rcases c23 h2 with ⟨h3, hc3⟩ | ⟨h3, hc3⟩
      · exact Or.inl ⟨h3, by rw [hc3, hc2]⟩
      · exact Or.inr ⟨h3, by rw [hc3, hc2]⟩
    · obtain ⟨u, hu⟩ := Option.isSome_iff_exists.mp h2
      obtain ⟨h3, hc3⟩ := b23 u hu
      exact Or.inr ⟨by simp [h3], by rw [hc3, hc2]⟩

lemma startUp_preserves (env : StartupEnv) (now : Nat)
    (d : StartUpDeferredOption) (s : StartupState) :
    preservesLifetime s (startUp env now d s).1 := by
  refine ⟨fun t h => ?_, fun u h => ?_, fun h => ?_⟩ <;>
    cases hu : s.startUpTime <;> cases hb : s.startBackendTime <;>
    simp_all [startUp] <;> split <;> simp_all

lemma tryStart_preserves (env : StartupEnv) (now : Nat) (s : StartupState) :
    preservesLifetime s (tryStart env now s).1 := by
  have hfields : ∀ hl, preservesLifetime s { s with histograms := hl } :=
    fun _ => ⟨fun _ h => h, fun _ h => ⟨h, rfl⟩, fun h => Or.inl ⟨h, rfl⟩⟩
  simp only [tryStart]
  split
  · exact preservesLifetime_refl s
  split
  · exact preservesLifetime_refl s
  split
  · exact preservesLifetime_refl s
  split
  · exact preservesLifetime_refl s
  split
  · exact preservesLifetime_refl s
  split
  · split <;> exact preservesLifetime_trans (hfields _) (startUp_preserves _ _ _ _)
  split
  · exact preservesLifetime_trans (hfields _) (startUp_preserves _ _ _ _)
  · exact hfields _

lemma onFallbackTimer_preserves (env : StartupEnv) (now : Nat) (s : StartupState) :
    preservesLifetime s (onFallbackStartupTimerExpired env now s) := by
  simp only [onFallbackStartupTimerExpired]
  split
  · exact preservesLifetime_refl s
  · refine preservesLifetime_trans ?_ (tryStart_preserves env now _)
    exact ⟨fun _ h => h, fun _ h => ⟨h, rfl⟩, fun h => Or.inl ⟨h, rfl⟩⟩

lemma onDataTypeRequest_preserves (env : StartupEnv) (now : Nat)
    (t : ModelType) (s : StartupState) :
    preservesLifetime s (onDataTypeRequestsSyncStartup env now t s) := by
  simp only [onDataTypeRequestsSyncStartup]
  split
  · exact preservesLifetime_refl s
  split
  · exact preservesLifetime_refl s
  · refine preservesLifetime_trans ?_ (tryStart_preserves env now _)
    cases h : s.startUpTime <;>
      exact ⟨fun _ h2 => by simp_all, fun _ h2 => ⟨by simp_all, rfl⟩,
             fun h2 => Or.inl ⟨by simp_all, rfl⟩⟩

lemma stepOp_preserves (env : StartupEnv) (now : Nat) (op : StartupOp)
    (s : StartupState) (hop : op ≠ StartupOp.opReset) :
    preservesLifetime s (stepOp env now op s) := by
  cases op with
  | opTryStart => exact tryStart_preserves env now s
  | opStartUp d => exact startUp_preserves env now d s
  | opReset => exact absurd rfl hop
  | opSetSetupInProgress b =>
      exact ⟨fun _ h => h, fun _ h => ⟨h, rfl⟩, fun h => Or.inl ⟨h, rfl⟩⟩
  | opFallbackTimer => exact onFallbackTimer_preserves env now s
  | opDataTypeRequest t => exact onDataTypeRequest_preserves env now t s

lemma runOps_preserves (env : StartupEnv) (ops : List (Nat × StartupOp))
    (s : StartupState) (hops : ∀ p ∈ ops, p.2 ≠ StartupOp.opReset) :
    preservesLifetime s (runOps env ops s) := by
  induction ops generalizing s with
  | nil => exact preservesLifetime_refl s
  | cons p rest ih =>
      refine preservesLifetime_trans
        (stepOp_preserves env p.1 p.2 s (hops p (List.mem_cons_self p rest))) ?_
      exact ih _ (fun q hq => hops q (List.mem_cons_of_mem p hq))

/-- C7: within one controller lifetime (no `Reset`), `start_up_time` is
set by the first `start_up` call and never changed afterwards by any
operation; once `start_backend_time` is set it never changes and the
`start_backend` closure is never invoked again; from an unset
`start_backend_time`, `start_up` sets the timestamp and invokes the
closure together, and over any reset-free operation sequence the closure
runs at most once — exactly when the timestamp becomes set; `Reset`
clears both timestamps. -/
theorem c7_lifetime_invariants :
    (∀ (env : StartupEnv) (now : Nat) (d : StartUpDeferredOption) (s : StartupState),
      s.startUpTime = none → (startUp env now d s).1.startUpTime = some now) ∧
    (∀ (env : StartupEnv) (now : Nat) (d : StartUpDeferredOption) (s : StartupState),
      s.startBackendTime = none →
      ((startUp env now d s).1.startBackendTime = none ∧
        (startUp env now d s).1.backendStarts = s.backendStarts) ∨
      ((startUp env now d s).1.startBackendTime = some now ∧
        (startUp env now d s).1.backendStarts = s.backendStarts + 1)) ∧
    (∀ s : StartupState,
      (reset s).startUpTime = none ∧ (reset s).startBackendTime = none) ∧
    (∀ (env : StartupEnv) (ops : List (Nat × StartupOp)) (s : StartupState),
      (∀ p ∈ ops, p.2 ≠ StartupOp.opReset) →
      preservesLifetime s (runOps env ops s)) := by
  refine ⟨?_, ?_, fun s => ⟨rfl, rfl⟩, runOps_preserves⟩
  · intro env now d s h
    cases hb : s.startBackendTime <;>
      simp_all [startUp] <;> split <;> simp_all
  · intro env now d s h
    cases hu : s.startUpTime <;>
      simp_all [startUp] <;> split <;> simp_all

/-- Witness for C7: a first `start_up` stamps the clock, and a concrete
reset-free run preserves the lifetime relation. -/
theorem c7_witness :
    (startUp
      { isManaged := false, isStartSuppressed := false, effectiveUsername := "user",
        tokenServiceExists := true, refreshTokenAvailable := true,
        hasSyncSetupCompleted := true, deferredStartupEnabled := false } 4
      StartUpDeferredOption.immediate
      { receivedStartRequest := false, setupInProgress := false,
        autoStartEnabled := false, startUpTime := none, startBackendTime := none,
        backendStarts := 0, timerScheduled := false,
        histograms := [] }).1.startUpTime = some 4 ∧
    preservesLifetime
      { receivedStartRequest := false, setupInProgress := false,
        autoStartEnabled := false, startUpTime := none, startBackendTime := none,
        backendStarts := 0, timerScheduled := false, histograms := [] }
      (runOps
        { isManaged := false, isStartSuppressed := false, effectiveUsername := "user",
          tokenServiceExists := true, refreshTokenAvailable := true,
          hasSyncSetupCompleted := true, deferredStartupEnabled := false }
        [(5, StartupOp.opTryStart), (6, StartupOp.opFallbackTimer)]
        { receivedStartRequest := false, setupInProgress := false,
          autoStartEnabled := false, startUpTime := none, startBackendTime := none,
          backendStarts := 0, timerScheduled := false, histograms := [] }) :=
  ⟨c7_lifetime_invariants.1 _ 4 _ _ rfl,
   c7_lifetime_invariants.2.2.2 _ _ _ (by decide)⟩

/-! ## Inbound stage: apply / commit (C1, C2) -/

/-- An inbound record the staging loop gets past: a delete, or an
add/update whose node lookup succeeds. -/
def stageable (store : ReadStore) (r : ChangeRecord) : Prop :=
  r.action = ChangeRecordAction.actionDelete ∨
  store.idLookup r.id = InitByLookupResult.ok

instance (store : ReadStore) (r : ChangeRecord) : Decidable (stageable store r) := by
  unfold stageable
  infer_instance

lemma applyLoop_cons_ok (store : ReadStore) (r : ChangeRecord)
    (rest : List ChangeRecord) (staged : List SyncChange)
    (hr : stageable store r) :
    applyLoop store (r :: rest) staged =
      applyLoop store rest (staged ++ [stageRecord store r]) := by
  cases ha : r.action with
  | actionDelete => simp [applyLoop, ha, stageRecord]
  | actionAdd =>
      have hok : store.idLookup r.id = InitByLookupResult.ok := by
        rcases hr with hd | hok
        · rw [ha] at hd
          cases hd
        · exact hok
      simp [applyLoop, ha, hok, stageRecord]
  | actionUpdate =>
      have hok : store.idLookup r.id = InitByLookupResult.ok := by
        rcases hr with hd | hok
        · rw [ha] at hd
          cases hd
        · exact hok
      simp [applyLoop, ha, hok, stageRecord]

lemma applyLoop_ok (store : ReadStore) (pre : List ChangeRecord)
    (h : ∀ x ∈ pre, stageable store x) (rest : List ChangeRecord)
    (staged : List SyncChange) :
    applyLoop store (pre ++ rest) staged =
      applyLoop store rest (staged ++ pre.map (stageRecord store)) := by
  induction pre generalizing staged with
  | nil => simp
  | cons r pre ih =>
      have hrest : ∀ x ∈ pre, stageable store x :=
        fun x hx => h x (List.mem_cons_of_mem r hx)
      rw [List.cons_append,
        applyLoop_cons_ok store r (pre ++ rest) staged (h r (List.mem_cons_self r pre)),
        ih hrest]
      simp

/-- C1 (amended): when an add/update record's node lookup fails, `apply`
reports the single unrecoverable lookup error and returns at once — but
the entries staged earlier in the call are NOT discarded: they remain in
the staging buffer. -/
theorem c1_apply_lookup_failure (store : ReadStore) (p : Processor)
    (pre : List ChangeRecord) (r : ChangeRecord) (post : List ChangeRecord)
    (hpre : ∀ x ∈ pre, stageable store x)
    (hract : r.action ≠ ChangeRecordAction.actionDelete)
    (hrfail : store.idLookup r.id ≠ InitByLookupResult.ok) :
    applyChangesFromSyncModel store p (pre ++ r :: post) =
      ({ p with syncerChanges := p.syncerChanges ++ pre.map (stageRecord store) },
       ["Failed to look up data for received change with id " ++ toString r.id]) := by
  unfold applyChangesFromSyncModel
  rw [applyLoop_ok store pre hpre]
  cases ha : r.action with
  | actionDelete => exact absurd ha hract
  | actionAdd => simp [applyLoop, ha, hrfail]
  | actionUpdate => simp [applyLoop, ha, hrfail]

/-- Shared concrete fixtures for the change-processor claims. -/
def specPrefs : EntitySpecifics :=
  { dataType := ModelType.preferences, hasEncrypted := false,
    encrypted := 0, payload := 5 }

def readStoreFail7 : ReadStore :=
  { idLookup := fun i => if i = 7 then InitByLookupResult.entryNotGood
      else InitByLookupResult.ok,
    nodeSpecifics := fun _ => specPrefs,
    tagLookup := fun _ => InitByLookupResult.ok,
    firstChildId := 0,
    successorId := fun _ => 0 }

def procRunning : Processor :=
  { running := true, localServiceAlive := true, syncerChanges := [] }

def procDeadService : Processor :=
  { running := true, localServiceAlive := false, syncerChanges := [] }

def svcAlwaysOk : List SyncChange → SyncError := fun _ => SyncError.unset

/-- Counterexample to C1 as stated: on the batch
`[Delete id=9, Add id=7]` with the lookup of id 7 failing, `apply` emits
the single unrecoverable error, but the entry staged for the earlier
delete record survives in the staging buffer — it is not discarded. -/
theorem c1_counterexample :
    (applyChangesFromSyncModel readStoreFail7 procRunning
        [⟨9, ChangeRecordAction.actionDelete, specPrefs⟩,
         ⟨7, ChangeRecordAction.actionAdd, specPrefs⟩]).2 =
      ["Failed to look up data for received change with id 7"] ∧
    (applyChangesFromSyncModel readStoreFail7 procRunning
        [⟨9, ChangeRecordAction.actionDelete, specPrefs⟩,
         ⟨7, ChangeRecordAction.actionAdd, specPrefs⟩]).1.syncerChanges =
      [⟨SyncChangeType.actDelete, SyncData.remoteData 9 specPrefs⟩] := by
  constructor <;> rfl

/-- Witness for the amended C1 at the concrete failing batch. -/
theorem c1_witness :
    applyChangesFromSyncModel readStoreFail7 procRunning
        ([⟨9, ChangeRecordAction.actionDelete, specPrefs⟩] ++
          ⟨7, ChangeRecordAction.actionAdd, specPrefs⟩ ::
          [⟨11, ChangeRecordAction.actionUpdate, specPrefs⟩]) =
      ({ procRunning with
          syncerChanges := procRunning.syncerChanges ++
            List.map (stageRecord readStoreFail7)
              [⟨9, ChangeRecordAction.actionDelete, specPrefs⟩] },
       ["Failed to look up data for received change with id 7"]) :=
  c1_apply_lookup_failure readStoreFail7 procRunning
    [⟨9, ChangeRecordAction.actionDelete, specPrefs⟩]
    ⟨7, ChangeRecordAction.actionAdd, specPrefs⟩
    [⟨11, ChangeRecordAction.actionUpdate, specPrefs⟩]
    (by decide) (by decide) (by decide)

/-- C2 (amended): while the pipeline is running, `apply(B); commit()`
leaves the staging buffer empty whenever the local service is still alive
— including when `process_sync_changes` returns an error — but when
`commit` finds the local service destroyed it raises the unrecoverable
error and returns with the staged entries still in the buffer. -/
theorem c2_commit_drains_when_alive (svc : List SyncChange → SyncError)
    (store : ReadStore) (p : Processor) (records : List ChangeRecord)
    (hrun : p.running = true) (halive : p.localServiceAlive = true) :
    (commitChangesFromSyncModel svc
        (applyChangesFromSyncModel store p records).1).1.syncerChanges = [] ∧
    (∀ q : Processor, q.running = true → q.localServiceAlive = false →
      q.syncerChanges ≠ [] →
      commitChangesFromSyncModel svc q = (q, ["Local service destroyed."])) := by
  constructor
  · have happ : (applyChangesFromSyncModel store p records).1.running = true ∧
        (applyChangesFromSyncModel store p records).1.localServiceAlive = true := by
      simp [applyChangesFromSyncModel, hrun, halive]
    obtain ⟨h1, h2⟩ := happ
    unfold commitChangesFromSyncModel
    rw [h1, h2]
    simp only [Bool.true_eq_false, if_false]
    split
    · simpa using (by assumption)
    · cases svc (applyChangesFromSyncModel store p records).1.syncerChanges <;> simp
  · intro q hq1 hq2 hq3
    unfold commitChangesFromSyncModel
    rw [hq1, hq2]
    simp [hq3]

/-- Counterexample to C2 as stated: after `apply` of a one-delete batch
and the matching `commit` that finds the local service destroyed, the
staging buffer is NOT empty — the staged entry survives. -/
theorem c2_counterexample :
    (commitChangesFromSyncModel svcAlwaysOk
        (applyChangesFromSyncModel readStoreFail7 procDeadService
          [⟨9, ChangeRecordAction.actionDelete, specPrefs⟩]).1).1.syncerChanges =
      [⟨SyncChangeType.actDelete, SyncData.remoteData 9 specPrefs⟩] ∧
    (commitChangesFromSyncModel svcAlwaysOk
        (applyChangesFromSyncModel readStoreFail7 procDeadService
          [⟨9, ChangeRecordAction.actionDelete, specPrefs⟩]).1).2 =
      ["Local service destroyed."] := by
  constructor <;> rfl

/-- Witness for the amended C2 at a concrete batch. -/
theorem c2_witness :
    (commitChangesFromSyncModel svcAlwaysOk
        (applyChangesFromSyncModel readStoreFail7 procRunning
          [⟨9, ChangeRecordAction.actionDelete, specPrefs⟩]).1).1.syncerChanges = [] ∧
    (∀ q : Processor, q.running = true → q.localServiceAlive = false →
      q.syncerChanges ≠ [] →
      commitChangesFromSyncModel svcAlwaysOk q = (q, ["Local service destroyed."])) :=
  c2_commit_drains_when_alive svcAlwaysOk readStoreFail7 procRunning
    [⟨9, ChangeRecordAction.actionDelete, specPrefs⟩] rfl rfl

/-! ## GetSyncDataForType traversal (C9) -/

lemma getSyncDataLoop_extends (store : ReadStore) (t : ModelType) :
    ∀ (fuel : Nat) (id : Int) (acc : List SyncData),
      ∃ tl, (getSyncDataLoop store t fuel id acc).1 = acc ++ tl := by
  intro fuel
  induction fuel with
  | zero =>
      intro id acc
      refine ⟨[], ?_⟩
      simp only [getSyncDataLoop]
      split <;> simp
  | succ fuel ih =>
      intro id acc
      simp only [getSyncDataLoop]
      split
      · exact ⟨[], by simp⟩
      split
      · exact ⟨[], by simp⟩
      · obtain ⟨tl, htl⟩ := ih (store.successorId id)
          (acc ++ [SyncData.remoteData id (store.nodeSpecifics id)])
        exact ⟨SyncData.remoteData id (store.nodeSpecifics id) :: tl, by
          rw [htl]
          simp⟩

lemma getSyncDataLoop_failed_msg (store : ReadStore) (t : ModelType) :
    ∀ (fuel : Nat) (id : Int) (acc : List SyncData) (e : SyncError),
      (getSyncDataLoop store t fuel id acc).2 = TraverseOutcome.failed e →
      e = SyncError.set
        ("Failed to fetch child node for type " ++ modelTypeToString t ++ ".") t := by
  intro fuel
  induction fuel with
  | zero =>
      intro id acc e h
      simp only [getSyncDataLoop] at h
      split at h <;> cases h
  | succ fuel ih =>
      intro id acc e h
      simp only [getSyncDataLoop] at h
      split at h
      · cases h
      split at h
      · replace h : TraverseOutcome.failed (SyncError.set
            ("Failed to fetch child node for type " ++ modelTypeToString t ++ ".") t) =
            TraverseOutcome.failed e := h
        injection h with h2
        exact h2.symm
      · exact ih _ _ e h

/-- C9: in `get_sync_data_for_type`, a failed id lookup mid-traversal
makes the very next step return a datatype-tagged error with the output
list exactly as accumulated (nothing is appended or cleared), every
traversal only extends the caller's output list, and every error the
operation can return is tagged with the datatype. -/
theorem c9_getSyncData_error_keeps_output (store : ReadStore) (t : ModelType) :
    (∀ (fuel : Nat) (id : Int) (acc : List SyncData), id ≠ 0 →
      store.idLookup id ≠ InitByLookupResult.ok →
      getSyncDataLoop store t (fuel + 1) id acc =
        (acc, TraverseOutcome.failed (SyncError.set
          ("Failed to fetch child node for type " ++ modelTypeToString t ++ ".") t))) ∧
    (∀ (fuel : Nat) (acc : List SyncData),
      ∃ tl, (getSyncDataForType store t fuel acc).1 = acc ++ tl) ∧
    (∀ (fuel : Nat) (acc : List SyncData) (e : SyncError),
      (getSyncDataForType store t fuel acc).2 = TraverseOutcome.failed e →
      ∃ msg, e = SyncError.set msg t) := by
  refine ⟨?_, ?_, ?_⟩
  · intro fuel id acc hid hfail
    simp [getSyncDataLoop, hid, hfail]
  · intro fuel acc
    unfold getSyncDataForType
    split
    · exact ⟨[], by simp⟩
    · exact getSyncDataLoop_extends store t fuel store.firstChildId acc
  · intro fuel acc e h
    unfold getSyncDataForType at h
    split at h
    · refine ⟨"Server did not create the top-level " ++ modelTypeToString t ++
        " node. We might be running against an out-of-date server.", ?_⟩
      replace h : TraverseOutcome.failed (SyncError.set
          ("Server did not create the top-level " ++ modelTypeToString t ++
            " node. We might be running against an out-of-date server.") t) =
          TraverseOutcome.failed e := h
      injection h with h2
      exact h2.symm
    · exact ⟨_, getSyncDataLoop_failed_msg store t fuel store.firstChildId acc e h⟩

/-- A concrete read store for the C9 witness: root has children 1 and 2;
the id lookup of child 2 fails mid-chain. -/
def readStoreChain : ReadStore :=
  { idLookup := fun i => if i = 2 then InitByLookupResult.entryNotGood
      else InitByLookupResult.ok,
    nodeSpecifics := fun _ => specPrefs,
    tagLookup := fun _ => InitByLookupResult.ok,
    firstChildId := 1,
    successorId := fun i => if i = 1 then 2 else 0 }

/-- Witness for C9: on the concrete two-child chain with the second child
failing, the one-step conjunct fires at id 2 with the first child's entry
already in the output list. -/
theorem c9_witness :
    getSyncDataLoop readStoreChain ModelType.preferences 3 2
        [SyncData.remoteData 1 specPrefs] =
      ([SyncData.remoteData 1 specPrefs], TraverseOutcome.failed (SyncError.set
        ("Failed to fetch child node for type " ++
          modelTypeToString ModelType.preferences ++ ".") ModelType.preferences)) :=
  (c9_getSyncData_error_keeps_output readStoreChain ModelType.preferences).1
    2 2 [SyncData.remoteData 1 specPrefs] (by decide) (by decide)

/-! ## Outbound stage (C3, C4, C6) -/

/-- The delete-path failure-kind mapping as the claim states it:
`EntryNotGood` → DeleteBadEntry, `EntryIsDeleted` → DeleteAlreadyDeleted,
`DecryptIfNecessary` → DeleteUndecryptable, `PreconditionFailed` →
DeletePrecondition, any other result → DeleteUnknown; each kind is
identified by its message text. -/
def deleteFailureSuffix : InitByLookupResult → String
  | .entryNotGood => "could not find entry matching the lookup criteria."
  | .entryIsDeleted => "entry is already deleted."
  | .decryptIfNecessary => "unable to decrypt"
  | .precondition => "a precondition was not met for calling init."
  | .ok => "unknown error"

lemma logLookupFailure_eq (result : InitByLookupResult) (head : String)
    (t : ModelType) :
    logLookupFailure result head t =
      (SyncError.set (head ++ deleteFailureSuffix result) t,
       [head ++ deleteFailureSuffix result]) := by
  cases result <;> rfl

/-- The encryption-diagnostic table as the claim states it, keyed on
`A = encrypted_types.contains(T)` and `C = can_decrypt(encrypted)`:
`(false,false)` → EncrMissingKeyNigoriMismatch, `(true,true)` →
EncrHaveKeyNigoriMatches, `(true,false)` → EncrMissingKeyNigoriMatches,
`(false,true)` → EncrHaveKeyNigoriMismatch; each kind is identified by
its message text. -/
def encrDiagnosisMessage (agreement canDecrypt : Bool) (ts : String) : String :=
  match agreement, canDecrypt with
  | false, false =>
      "Failed to load encrypted entry, missing key and nigori mismatch for " ++ ts ++ "."
  | true, true =>
      "Failed to load encrypted entry, we have the key and the nigori matches (?!) for "
        ++ ts ++ "."
  | true, false =>
      "Failed to load encrypted entry, missing key and the nigori matches for " ++ ts ++ "."
  | false, true =>
      "Failed to load encrypted entry, we have the key(?!) and nigori mismatch for "
        ++ ts ++ "."

lemma attemptDelete_shape (store : TreeStore) (c : SyncChange) (t : ModelType)
    (ts : String) :
    ((attemptDelete store c t ts).2.2 = SyncError.unset ∧
      (attemptDelete store c t ts).2.1 = []) ∨
    (∃ m, attemptDelete store c t ts = ([], [m], SyncError.set m t)) := by
  obtain ⟨ct, sd⟩ := c
  cases sd with
  | localData tag title s =>
      simp only [attemptDelete]
      split
      · exact Or.inr ⟨_, rfl⟩
      split
      · rw [logLookupFailure_eq]
        exact Or.inr ⟨_, rfl⟩
      · exact Or.inl ⟨rfl, rfl⟩
  | remoteData rid s =>
      simp only [attemptDelete]
      split
      · rw [logLookupFailure_eq]
        exact Or.inr ⟨_, rfl⟩
      · exact Or.inl ⟨rfl, rfl⟩

lemma processOne_shape (store : TreeStore) (c : SyncChange) :
    ((processOne store c).2.2 = SyncError.unset ∧ (processOne store c).2.1 = []) ∨
    (∃ m t, processOne store c = ([], [m], SyncError.set m t)) ∨
    (∃ m, processOne store c = ([], [], SyncError.checkCrash m)) := by
  obtain ⟨ct, sd⟩ := c
  cases ct with
  | actDelete =>
      rcases attemptDelete_shape store ⟨SyncChangeType.actDelete, sd⟩
          sd.GetDataType (modelTypeToString sd.GetDataType) with ⟨h1, h2⟩ | ⟨m, hm⟩
      · exact Or.inl ⟨h1, h2⟩
      · exact Or.inr (Or.inl ⟨m, sd.GetDataType, hm⟩)
  | actAdd =>
      simp only [processOne]
      split
      · exact Or.inr (Or.inl ⟨_, _, rfl⟩)
      · split
        · exact Or.inl ⟨rfl, rfl⟩
        · exact Or.inr (Or.inl ⟨_, _, rfl⟩)
        · exact Or.inr (Or.inl ⟨_, _, rfl⟩)
        · exact Or.inr (Or.inl ⟨_, _, rfl⟩)
        · exact Or.inr (Or.inl ⟨_, _, rfl⟩)
  | actUpdate =>
      simp only [processOne]
      split
      · exact Or.inl ⟨rfl, rfl⟩
      split
      · exact Or.inr (Or.inl ⟨_, _, rfl⟩)
      split
      · exact Or.inr (Or.inl ⟨_, _, rfl⟩)
      split
      · exact Or.inr (Or.inl ⟨_, _, rfl⟩)
      split
      · exact Or.inr (Or.inr ⟨_, rfl⟩)
      split
      · exact Or.inr (Or.inl ⟨_, _, rfl⟩)
      split
      · exact Or.inr (Or.inl ⟨_, _, rfl⟩)
      split
      · exact Or.inr (Or.inl ⟨_, _, rfl⟩)
      · exact Or.inr (Or.inl ⟨_, _, rfl⟩)
  | actInvalid => exact Or.inr (Or.inl ⟨_, _, rfl⟩)

lemma processOne_unset_reports (store : TreeStore) (c : SyncChange)
    (h : (processOne store c).2.2 = SyncError.unset) :
    (processOne store c).2.1 = [] := by
  rcases processOne_shape store c with ⟨_, h2⟩ | ⟨m, t, hm⟩ | ⟨m, hm⟩
  · exact h2
  · rw [hm] at h
    cases h
  · rw [hm] at h
    cases h

lemma processOne_set_shape (store : TreeStore) (c : SyncChange)
    (msg : String) (t : ModelType)
    (h : (processOne store c).2.2 = SyncError.set msg t) :
    processOne store c = ([], [msg], SyncError.set msg t) := by
  rcases processOne_shape store c with ⟨h1, _⟩ | ⟨m, u, hm⟩ | ⟨m, hm⟩
  · rw [h] at h1
    cases h1
  · rw [hm] at h
    replace h : SyncError.set m u = SyncError.set msg t := h
    injection h with hmsg ht
    rw [hm, hmsg, ht]
  · rw [hm] at h
    cases h

lemma processLoop_ok_front (store : TreeStore) (pre : List SyncChange)
    (h : ∀ x ∈ pre, (processOne store x).2.2 = SyncError.unset) :
    ∀ (rest : List SyncChange) (muts : List Mutation) (reps : List String),
      processLoop store (pre ++ rest) muts reps =
        processLoop store rest (muts ++ preMutations store pre) reps := by
  induction pre with
  | nil => simp [preMutations]
  | cons c pre ih =>
      intro rest muts reps
      have hc := h c (List.mem_cons_self c pre)
      have hrest : ∀ x ∈ pre, (processOne store x).2.2 = SyncError.unset :=
        fun x hx => h x (List.mem_cons_of_mem c hx)
      simp only [List.cons_append, processLoop, hc, processOne_unset_reports store c hc,
        List.append_nil, preMutations, List.append_eq]
      rw [ih hrest]
      simp

/-- C4: in one `process` call, iteration stops at the first change that
produces an error; that error is reported to the error handler exactly
once and returned to the caller, and the mutations already applied for
the earlier changes of the batch are kept (no rollback). -/
theorem c4_first_error_stops (store : TreeStore) (pre : List SyncChange)
    (c : SyncChange) (post : List SyncChange) (msg : String) (t : ModelType)
    (hpre : ∀ x ∈ pre, (processOne store x).2.2 = SyncError.unset)
    (hc : (processOne store c).2.2 = SyncError.set msg t) :
    processSyncChanges store (pre ++ c :: post) =
      (preMutations store pre, [msg], SyncError.set msg t) := by
  unfold processSyncChanges
  rw [processLoop_ok_front store pre hpre]
  simp only [processLoop, processOne_set_shape store c msg t hc]
  simp

/-- A concrete write-side tree store where every operation succeeds. -/
def treeStoreOk : TreeStore :=
  { tagLookup := fun _ => InitByLookupResult.ok,
    clientTagLookup := fun _ _ => InitByLookupResult.ok,
    idLookup := fun _ => InitByLookupResult.ok,
    createUnique := fun _ _ => InitUniqueByCreationResult.success,
    entrySpecifics := fun _ _ => specPrefs,
    canDecrypt := fun _ => false,
    encryptedTypes := fun _ => false }

/-- Witness for C4: an add succeeds, the following empty-tag delete
fails; the batch stops there with exactly one report, keeps the add's
mutations, and the change after the failure is never processed. -/
theorem c4_witness :
    processSyncChanges treeStoreOk
        ([⟨SyncChangeType.actAdd, SyncData.localData "k" "hello" specPrefs⟩] ++
          ⟨SyncChangeType.actDelete, SyncData.localData "" "x" specPrefs⟩ ::
          [⟨SyncChangeType.actUpdate, SyncData.localData "k" "t2" specPrefs⟩]) =
      (preMutations treeStoreOk
        [⟨SyncChangeType.actAdd, SyncData.localData "k" "hello" specPrefs⟩],
       ["Failed to delete Preferences node. Local data, empty tag."],
       SyncError.set "Failed to delete Preferences node. Local data, empty tag."
         ModelType.preferences) :=
  c4_first_error_stops treeStoreOk
    [⟨SyncChangeType.actAdd, SyncData.localData "k" "hello" specPrefs⟩]
    ⟨SyncChangeType.actDelete, SyncData.localData "" "x" specPrefs⟩
    [⟨SyncChangeType.actUpdate, SyncData.localData "k" "t2" specPrefs⟩]
    "Failed to delete Preferences node. Local data, empty tag."
    ModelType.preferences (by decide) (by decide)

/-- C3: an outbound update whose client-tag lookup fails with a result
other than Ok / PreconditionFailed / EntryNotGood / EntryIsDeleted, on a
node whose specifics carry the encrypted marker, makes `process` emit
exactly one error report, chosen from the four encryption-diagnostic
kinds by the `(A, C)` table, and return that same error. -/
theorem c3_encryption_diagnostic (store : TreeStore) (tag title : String)
    (s : EntitySpecifics) (rest : List SyncChange)
    (h1 : store.clientTagLookup s.dataType tag ≠ InitByLookupResult.ok)
    (h2 : store.clientTagLookup s.dataType tag ≠ InitByLookupResult.precondition)
    (h3 : store.clientTagLookup s.dataType tag ≠ InitByLookupResult.entryNotGood)
    (h4 : store.clientTagLookup s.dataType tag ≠ InitByLookupResult.entryIsDeleted)
    (henc : (store.entrySpecifics s.dataType tag).hasEncrypted = true) :
    processSyncChanges store
        (⟨SyncChangeType.actUpdate, SyncData.localData tag title s⟩ :: rest) =
      ([], [encrDiagnosisMessage (store.encryptedTypes s.dataType)
              (store.canDecrypt (store.entrySpecifics s.dataType tag).encrypted)
              (modelTypeToString s.dataType)],
       SyncError.set
         (encrDiagnosisMessage (store.encryptedTypes s.dataType)
           (store.canDecrypt (store.entrySpecifics s.dataType tag).encrypted)
           (modelTypeToString s.dataType)) s.dataType) := by
  have hres : store.clientTagLookup s.dataType tag =
      InitByLookupResult.decryptIfNecessary := by
    cases h : store.clientTagLookup s.dataType tag <;> simp_all
  simp only [processSyncChanges, processLoop, processOne, SyncData.GetDataType,
    SyncData.GetTag, hres, henc]
  cases hA : store.encryptedTypes s.dataType <;>
    cases hC : store.canDecrypt (store.entrySpecifics s.dataType tag).encrypted <;>
    simp [encrDiagnosisMessage, hA, hC]

/-- A concrete tree store for the C3 witness: client-tag lookups fail
with `DecryptIfNecessary`, the stored entry is encrypted, the datatype is
in the encrypted set, and the cryptographer cannot decrypt. -/
def treeStoreEncr : TreeStore :=
  { tagLookup := fun _ => InitByLookupResult.ok,
    clientTagLookup := fun _ _ => InitByLookupResult.decryptIfNecessary,
    idLookup := fun _ => InitByLookupResult.ok,
    createUnique := fun _ _ => InitUniqueByCreationResult.success,
    entrySpecifics := fun _ _ =>
      { dataType := ModelType.passwords, hasEncrypted := true,
        encrypted := 3, payload := 0 },
    canDecrypt := fun _ => false,
    encryptedTypes := fun t => decide (t = ModelType.passwords) }

def specPasswords : EntitySpecifics :=
  { dataType := ModelType.passwords, hasEncrypted := true,
    encrypted := 3, payload := 0 }

/-- Witness for C3: the `(A=true, C=false)` cell of the table. -/
theorem c3_witness :
    processSyncChanges treeStoreEncr
        (⟨SyncChangeType.actUpdate, SyncData.localData "k" "t" specPasswords⟩ :: []) =
      ([], [encrDiagnosisMessage (treeStoreEncr.encryptedTypes specPasswords.dataType)
              (treeStoreEncr.canDecrypt
                (treeStoreEncr.entrySpecifics specPasswords.dataType "k").encrypted)
              (modelTypeToString specPasswords.dataType)],
       SyncError.set
         (encrDiagnosisMessage (treeStoreEncr.encryptedTypes specPasswords.dataType)
           (treeStoreEncr.canDecrypt
             (treeStoreEncr.entrySpecifics specPasswords.dataType "k").encrypted)
           (modelTypeToString specPasswords.dataType)) specPasswords.dataType) :=
  c3_encryption_diagnostic treeStoreEncr "k" "t" specPasswords []
    (by decide) (by decide) (by decide) (by decide) (by decide)

/-- C6: outbound delete semantics — a Local change with an empty tag
makes `process` return the DeleteLocalEmptyTag error with no tree
mutation; a failed tag-based (Local) or id-based (Remote) lookup yields
the error kind given by the `deleteFailureSuffix` mapping with no
mutation; and `node.remove()` is invoked exactly when the lookup
succeeds. -/
theorem c6_delete_semantics (store : TreeStore) (rest : List SyncChange)
    (title tag : String) (s : EntitySpecifics) (rid : Int) :
    (processSyncChanges store
        (⟨SyncChangeType.actDelete, SyncData.localData "" title s⟩ :: rest) =
      ([], ["Failed to delete " ++ modelTypeToString s.dataType ++
            " node. Local data, empty tag."],
       SyncError.set ("Failed to delete " ++ modelTypeToString s.dataType ++
         " node. Local data, empty tag.") s.dataType)) ∧
    (tag ≠ "" → store.clientTagLookup s.dataType tag ≠ InitByLookupResult.ok →
      processSyncChanges store
          (⟨SyncChangeType.actDelete, SyncData.localData tag title s⟩ :: rest) =
        ([], ["Failed to delete " ++ modelTypeToString s.dataType ++
              " node. Local data, " ++
              deleteFailureSuffix (store.clientTagLookup s.dataType tag)],
         SyncError.set ("Failed to delete " ++ modelTypeToString s.dataType ++
           " node. Local data, " ++
           deleteFailureSuffix (store.clientTagLookup s.dataType tag)) s.dataType)) ∧
    (store.idLookup rid ≠ InitByLookupResult.ok →
      processSyncChanges store
          (⟨SyncChangeType.actDelete, SyncData.remoteData rid s⟩ :: rest) =
        ([], ["Failed to delete " ++ modelTypeToString s.dataType ++
              " node. Non-local data, " ++
              deleteFailureSuffix (store.idLookup rid)],
         SyncError.set ("Failed to delete " ++ modelTypeToString s.dataType ++
           " node. Non-local data, " ++
           deleteFailureSuffix (store.idLookup rid)) s.dataType)) ∧
    (tag ≠ "" → store.clientTagLookup s.dataType tag = InitByLookupResult.ok →
      processOne store ⟨SyncChangeType.actDelete, SyncData.localData tag title s⟩ =
        ([Mutation.remove (NodeRef.byClientTag s.dataType tag)], [],
         SyncError.unset)) ∧
    (store.idLookup rid = InitByLookupResult.ok →
      processOne store ⟨SyncChangeType.actDelete, SyncData.remoteData rid s⟩ =
        ([Mutation.remove (NodeRef.byId rid)], [], SyncError.unset)) := by
  refine ⟨?_, ?_, ?_, ?_, ?_⟩
  · simp [processSyncChanges, processLoop, processOne, attemptDelete,
      SyncData.GetDataType]
  · intro htag hfail
    simp [processSyncChanges, processLoop, processOne, attemptDelete, htag, hfail,
      logLookupFailure_eq, SyncData.GetDataType]
  · intro hfail
    simp [processSyncChanges, processLoop, processOne, attemptDelete, hfail,
      logLookupFailure_eq, SyncData.GetDataType]
  · intro htag hok
    simp [processOne, attemptDelete, htag, hok, SyncData.GetDataType]
  · intro hok
    simp [processOne, attemptDelete, hok, SyncData.GetDataType]

/-- A tree store whose client-tag lookups report an already-deleted
entry, for the C6 witness. -/
def treeStoreDeleted : TreeStore :=
  { tagLookup := fun _ => InitByLookupResult.ok,
    clientTagLookup := fun _ _ => InitByLookupResult.entryIsDeleted,
    idLookup := fun _ => InitByLookupResult.ok,
    createUnique := fun _ _ => InitUniqueByCreationResult.success,
    entrySpecifics := fun _ _ => specPrefs,
    canDecrypt := fun _ => false,
    encryptedTypes := fun _ => false }

/-- Witness for C6: the EntryIsDeleted → DeleteAlreadyDeleted mapping at
a concrete store, and a successful remote-id delete invoking remove. -/
theorem c6_witness :
    (processSyncChanges treeStoreDeleted
        (⟨SyncChangeType.actDelete, SyncData.localData "k" "t" specPrefs⟩ :: []) =
      ([], ["Failed to delete " ++ modelTypeToString specPrefs.dataType ++
            " node. Local data, " ++
            deleteFailureSuffix (treeStoreDeleted.clientTagLookup specPrefs.dataType "k")],
       SyncError.set ("Failed to delete " ++ modelTypeToString specPrefs.dataType ++
         " node. Local data, " ++
         deleteFailureSuffix (treeStoreDeleted.clientTagLookup specPrefs.dataType "k"))
         specPrefs.dataType)) ∧
    (processOne treeStoreDeleted
        ⟨SyncChangeType.actDelete, SyncData.remoteData 5 specPrefs⟩ =
      ([Mutation.remove (NodeRef.byId 5)], [], SyncError.unset)) :=
  ⟨(c6_delete_semantics treeStoreDeleted [] "t" "k" specPrefs 5).2.1
      (by decide) (by decide),
   (c6_delete_semantics treeStoreDeleted [] "t" "k" specPrefs 5).2.2.2.2
      (by decide)⟩

end ChromeSync
